import Mathlib

/- Verification of the spark-stack session orchestrator
   (backend/routers/project_socket.py) and streaming agent
   (backend/agents/agent.py), shallowly embedded in Lean.

   Python exceptions are modelled with an explicit error type; fallible code
   returns `Except PyError` or pairs a result state with an optional raised
   error.  External collaborators (the OpenAI completion stream, json.loads,
   the sandbox) are passed in as oracles. -/

/-- Python exception classes raised by the embedded code. -/
inductive PyError
  | attributeError
  | keyError
  | valueError (msg : String)
  | typeError
  | indexError
  | jsonDecodeError
deriving DecidableEq

/-- The `SandboxStatus` enum of project_socket.py. -/
inductive SandboxStatus
  | OFFLINE
  | BUILDING
  | BUILDING_WAITING
  | READY
  | WORKING
  | WORKING_APPLYING
deriving DecidableEq

/-- `PartialChatMessage` exactly as declared in agents/agent.py (lines 18-21):
the model has fields `role`, `delta_content`, `delta_thinking_content` and
declares no `persist` field. -/
structure PartialChatMessage where
  role : String
  delta_content : String := ""
  delta_thinking_content : String := ""
deriving DecidableEq

/-- The attribute access `partial_message.persist` performed by
`ProjectManager._handle_chat_message` (project_socket.py line 224).  Since
`PartialChatMessage` is a pydantic model that declares no `persist` field,
the access raises `AttributeError` for every fragment. -/
def PartialChatMessage.readPersist (_ : PartialChatMessage) :
    Except PyError Bool :=
  .error .attributeError

/-- The accumulation loop of `_handle_chat_message` over the fragments yielded
by `Agent.step`: `total_content` starts empty and, for each fragment, the code
evaluates `partial_message.persist` and, when true, appends
`partial_message.delta_content`. -/
def accumulateTurnContentFrom (total : String) :
    List PartialChatMessage → Except PyError String
  | [] => .ok total
  | f :: rest =>
    match f.readPersist with
    | .error e => .error e
    | .ok p =>
      accumulateTurnContentFrom (if p then total ++ f.delta_content else total) rest

/-- Durable-content accumulation for a whole turn (starts from `""`). -/
def accumulateTurnContent (frags : List PartialChatMessage) :
    Except PyError String :=
  accumulateTurnContentFrom "" frags

/-- The first fragment `Agent.step` yields on every turn
(agent.py line 286): an initial empty content fragment. -/
def stepInitialFragment : PartialChatMessage :=
  { role := "assistant", delta_content := "", delta_thinking_content := "" }

/- ===== Sandbox lifecycle: `_manage_sandbox_task` ===== -/

/-- Outcome of one `DevSandbox.get_or_create` attempt: either it raises
`SandboxNotReadyException` or it returns a sandbox. -/
inductive AcquireResult
  | notReady
  | acquired
deriving DecidableEq

/-- Observable actions of the reconciliation task: a project-wide status
broadcast (`emit_project(_get_project_status())`) or an `asyncio.sleep`. -/
inductive SbEvent
  | emitStatus (s : SandboxStatus)
  | sleepSeconds (n : Nat)
deriving DecidableEq

/-- The `while self.sandbox is None` acquisition loop (project_socket.py lines
125-131): on `SandboxNotReadyException` set status `BUILDING_WAITING`, emit it,
sleep 10 seconds, retry.  The oracle lists the successive outcomes of
`DevSandbox.get_or_create`. -/
def acquireLoopEvents : List AcquireResult → List SbEvent
  | [] => []
  | AcquireResult.acquired :: _ => []
  | AcquireResult.notReady :: rest =>
    SbEvent.emitStatus SandboxStatus.BUILDING_WAITING ::
      SbEvent.sleepSeconds 10 :: acquireLoopEvents rest

/-- Whether the acquisition oracle eventually yields a sandbox. -/
def acquireSucceeds : List AcquireResult → Bool
  | [] => false
  | AcquireResult.acquired :: _ => true
  | AcquireResult.notReady :: rest => acquireSucceeds rest

/-- Installing the ready sandbox into the open agents (project_socket.py lines
141-143).  The loop calls `agent.set_sandbox(...)` and then
`agent.set_app_temp_url(...)`; the `Agent` class of agents/agent.py defines
only `set_sandbox`, so with a non-empty agent map the first iteration raises
`AttributeError`. -/
def installSandboxIntoAgents : List Nat → Except PyError Unit
  | [] => .ok ()
  | _ :: _ => .error .attributeError

/-- One run of `_manage_sandbox_task` up to the end of readiness installation:
emit `BUILDING`, run the acquisition retry loop, and on success emit `READY`
after snapshotting tunnels/files/change log, then install the handle into the
open agents.  After this the task only polls liveness every 30 seconds, which
broadcasts nothing while the sandbox stays up.  Returns the emitted events and
the error the task raises, if any. -/
def manage_sandbox_events (oracle : List AcquireResult) (agents : List Nat) :
    List SbEvent × Option PyError :=
  let pre := SbEvent.emitStatus SandboxStatus.BUILDING :: acquireLoopEvents oracle
  if acquireSucceeds oracle then
    let evs := pre ++ [SbEvent.emitStatus SandboxStatus.READY]
    match installSandboxIntoAgents agents with
    | .ok _ => (evs, none)
    | .error e => (evs, some e)
  else (pre, none)

/-- Projection of an event trace to the broadcast status values. -/
def statusesOf (evs : List SbEvent) : List SandboxStatus :=
  evs.filterMap (fun e =>
    match e with
    | SbEvent.emitStatus s => some s
    | SbEvent.sleepSeconds _ => none)

/- ===== Turn handling: `on_chat_message` error paths ===== -/

/-- Outcome of an awaited piece of Python code: normal return, or a raised
exception.  `isExceptionSubclass` records whether the raised object derives
from `Exception` (e.g. `ValueError`); `asyncio.CancelledError` derives only
from `BaseException`, for which the flag is `false`. -/
inductive Outcome
  | ok
  | exc (isExceptionSubclass : Bool)
deriving DecidableEq

/-- `ProjectManager._try_handle_chat_message` (project_socket.py lines
261-269): run `_handle_chat_message`; `except Exception` catches only
`Exception` subclasses, then sets `sandbox_status = READY` and awaits a
recovery `emit_project`, whose own outcome propagates.  Inputs: the outcome of
the body, the status at the moment the body returned or raised, and the
outcome of the recovery broadcast.  Returns the status afterwards and what
propagates to the caller.  On the body's normal return the status is `READY`
because `_handle_chat_message` line 254 set it before returning. -/
def try_handle_chat_message (bodyOutcome : Outcome)
    (statusAtRaise : SandboxStatus) (recoveryEmitOutcome : Outcome) :
    SandboxStatus × Outcome :=
  match bodyOutcome with
  | Outcome.ok => (SandboxStatus.READY, Outcome.ok)
  | Outcome.exc true => (SandboxStatus.READY, recoveryEmitOutcome)
  | Outcome.exc false => (statusAtRaise, Outcome.exc false)

/-- Observable result of one `on_chat_message` call: whether
`self.lock.release()` executed, the sandbox status afterwards, and what
propagates to the spawning task. -/
structure OnMsgObs where
  lockReleased : Bool
  statusAfter : SandboxStatus
  raisedToCaller : Outcome
deriving DecidableEq

/-- `ProjectManager.on_chat_message` (project_socket.py lines 271-276): after
acquiring the lock it awaits `_try_handle_chat_message` and then calls
`self.lock.release()` on the straight-line path; there is no try/finally, so
the release is reached only when `_try_handle_chat_message` returns
normally. -/
def on_chat_message (bodyOutcome : Outcome) (statusAtRaise : SandboxStatus)
    (recoveryEmitOutcome : Outcome) : OnMsgObs :=
  match try_handle_chat_message bodyOutcome statusAtRaise recoveryEmitOutcome with
  | (st, Outcome.ok) => { lockReleased := true, statusAfter := st, raisedToCaller := Outcome.ok }
  | (st, e) => { lockReleased := false, statusAfter := st, raisedToCaller := e }

/- ===== Turn lock semantics: asyncio.Lock ===== -/

/-- State of the project-wide turn-lock discipline: whether a turn holds the
lock, the messages suspended inside `await self.lock.acquire()` in FIFO order,
the messages whose turn body has run, and the messages dropped by the
`if not await self.lock.acquire(): return` branch. -/
structure MsgSys where
  lockHeld : Bool
  waiters : List Nat
  handled : List Nat
  dropped : List Nat
deriving DecidableEq

/-- Arrival of an inbound message at `on_chat_message` under asyncio.Lock
semantics: `await self.lock.acquire()` suspends while the lock is held (the
task joins the FIFO wait queue) and returns `True` once it holds the lock; it
never returns `False`, so the drop branch is unreachable and a message
arriving while busy is queued, not dropped. -/
def onChatMessageArrival (s : MsgSys) (m : Nat) : MsgSys :=
  if s.lockHeld then { s with waiters := s.waiters ++ [m] }
  else { s with lockHeld := true, handled := s.handled ++ [m] }

/-- `self.lock.release()` at the end of a turn: asyncio wakes the first
waiter, which resumes inside `acquire()` holding the lock and proceeds to
handle its message. -/
def releaseTurnLock (s : MsgSys) : MsgSys :=
  match s.waiters with
  | [] => { s with lockHeld := false }
  | m :: rest => { s with waiters := rest, handled := s.handled ++ [m] }

/- ===== Socket/session registry ===== -/

/-- The per-chat session maps of `ProjectManager`: `chat_sockets` maps a chat
id to its list of connected sockets, `chat_agents` and `chat_users` record the
chats holding an agent instance and a user record. -/
structure Registry where
  chat_sockets : List (Nat × List Nat)
  chat_agents : List Nat
  chat_users : List Nat
deriving DecidableEq

/-- Dictionary lookup `d[k]` on the socket map (None when absent). -/
def lookupKey : List (Nat × List Nat) → Nat → Option (List Nat)
  | [], _ => none
  | (k, v) :: rest, k2 => if k = k2 then some v else lookupKey rest k2

/-- Replace the value stored under an existing key. -/
def updateAssoc : List (Nat × List Nat) → Nat → List Nat → List (Nat × List Nat)
  | [], _, _ => []
  | (k, v) :: rest, k2, v2 =>
    if k = k2 then (k, v2) :: rest else (k, v) :: updateAssoc rest k2 v2

/-- Python `del d[k]` on the socket map (the key is present whenever used). -/
def eraseKey : List (Nat × List Nat) → Nat → List (Nat × List Nat)
  | [], _ => []
  | (k, v) :: rest, k2 => if k = k2 then rest else (k, v) :: eraseKey rest k2

/-- Python `list.remove(x)` with the `ValueError` (absent element) caught:
remove the first occurrence, no-op when absent. -/
def removeFirst : List Nat → Nat → List Nat
  | [], _ => []
  | x :: rest, y => if x = y then rest else x :: removeFirst rest y

/-- Number of positional parameters of `Agent.__init__` besides `self`
(agents/agent.py line 211: `def __init__(self, project, stack)`). -/
def agentInitArity : Nat := 2

/-- Number of positional arguments passed at the construction site in
`add_chat_socket` (project_socket.py line 179: `Agent(project, stack, user)`). -/
def agentCtorCallArgs : Nat := 3

/-- Python call semantics for `Agent(project, stack, user)`: a positional
argument count different from the parameter count raises `TypeError` before
the constructor body runs. -/
def constructChatAgent : Except PyError Unit :=
  if agentCtorCallArgs = agentInitArity then .ok () else .error .typeError

/-- `self.chat_sockets[chat_id].append(websocket)`. -/
def appendSock (l : List (Nat × List Nat)) (k s : Nat) : List (Nat × List Nat) :=
  match lookupKey l k with
  | none => l
  | some v => updateAssoc l k (v ++ [s])

/-- `ProjectManager.add_chat_socket` (project_socket.py lines 170-185),
restricted to its session-map effects: when the chat has no entry, construct
an `Agent` and create the three map entries, then append the socket.  The
`Agent(project, stack, user)` call raises before any map is touched, in which
case the registry is returned unchanged together with the raised error. -/
def add_chat_socket (r : Registry) (chat_id sock : Nat) :
    Registry × Option PyError :=
  match lookupKey r.chat_sockets chat_id with
  | none =>
    (match constructChatAgent with
     | .error e => (r, some e)
     | .ok _ =>
       let r2 : Registry :=
         { chat_sockets := r.chat_sockets ++ [(chat_id, [])],
           chat_agents := r.chat_agents ++ [chat_id],
           chat_users := r.chat_users ++ [chat_id] }
       ({ r2 with chat_sockets := appendSock r2.chat_sockets chat_id sock }, none))
  | some _ =>
    ({ r with chat_sockets := appendSock r.chat_sockets chat_id sock }, none)

/-- `ProjectManager.remove_chat_socket` (project_socket.py lines 187-195):
`try: self.chat_sockets[chat_id].remove(websocket) except ValueError: pass` —
the subscript raises `KeyError` when the chat has no entry and only
`ValueError` is caught; then, when the socket list became empty, delete all
three map entries (`del` raises `KeyError` on an absent key).  Returns the
registry after whatever mutations happened plus the raised error, if any. -/
def remove_chat_socket (r : Registry) (chat_id sock : Nat) :
    Registry × Option PyError :=
  match lookupKey r.chat_sockets chat_id with
  | none => (r, some .keyError)
  | some l =>
    let l2 := removeFirst l sock
    let ra : Registry := { r with chat_sockets := updateAssoc r.chat_sockets chat_id l2 }
    if l2.length = 0 then
      let rb : Registry := { ra with chat_sockets := eraseKey ra.chat_sockets chat_id }
      if chat_id ∈ rb.chat_agents then
        let rc : Registry := { rb with chat_agents := removeFirst rb.chat_agents chat_id }
        if chat_id ∈ rc.chat_users then
          ({ rc with chat_users := removeFirst rc.chat_users chat_id }, none)
        else (rc, some .keyError)
      else (rb, some .keyError)
    else (ra, none)

/- ===== `kill()` ===== -/

/-- Observable actions of `ProjectManager.kill`. -/
inductive KillEvent
  | statusBroadcast (s : SandboxStatus)
  | socketClose (sock : Nat)
  | teardown
deriving DecidableEq

/-- Orchestrator state relevant to `kill()`. -/
structure PMState where
  killed : Bool
  sandbox_status : SandboxStatus
  reg : Registry
  modal_volume_label : Option String
deriving DecidableEq

/-- Every socket across every chat of the project. -/
def allSockets (r : Registry) : List Nat :=
  (r.chat_sockets.map (fun p => p.2)).flatten

/-- `ProjectManager.kill` (project_socket.py lines 95-119): return immediately
when `killed` is already set; otherwise set the one-way flag, set status
`BUILDING`, broadcast it project-wide, close every open socket, clear the
three session maps, and — when the project has a `modal_volume_label` —
request teardown of its remote resources. -/
def PMState.kill (s : PMState) : PMState × List KillEvent :=
  if s.killed then (s, [])
  else
    ({ killed := true, sandbox_status := SandboxStatus.BUILDING,
       reg := { chat_sockets := [], chat_agents := [], chat_users := [] },
       modal_volume_label := s.modal_volume_label },
     KillEvent.statusBroadcast SandboxStatus.BUILDING ::
       (allSockets s.reg).map KillEvent.socketClose ++
       (if s.modal_volume_label.isSome then [KillEvent.teardown] else []))

/-- Recognizer for status broadcasts among kill events. -/
def isStatusBroadcast : KillEvent → Bool
  | KillEvent.statusBroadcast _ => true
  | _ => false

/-- Recognizer for remote-resource teardown requests. -/
def isTeardown : KillEvent → Bool
  | KillEvent.teardown => true
  | _ => false

/- ===== Streaming Agent execution loop: `Agent.step` ===== -/

/-- The `function` member of an OpenAI streamed tool-call delta: a pydantic
object with optional `name` and `arguments` fields (the fields always exist as
attributes, possibly holding `None`). -/
structure ToolCallFunction where
  name : Option String
  arguments : Option String
deriving DecidableEq

/-- One streamed tool-call delta (`ChoiceDeltaToolCall`): an optional index, an
optional call id, and the function fragment. -/
structure ToolCallDelta where
  index : Option Nat
  id : Option String
  function : ToolCallFunction
deriving DecidableEq

/-- Python truthiness of an optional string: `None` and `""` are falsy. -/
def truthyStr : Option String → Bool
  | none => false
  | some s => if s = "" then false else true

/-- The argument text a delta carries (empty when the field is `None`). -/
def argPayload (d : ToolCallDelta) : String :=
  match d.function.arguments with
  | none => ""
  | some s => s

/-- One iteration of the tool-call accumulation in `Agent.step` (agent.py
lines 343-365) for a single delta.  When the buffer is shorter than the index
the delta object itself is appended and then `tool_calls_buffer[index]` is
read (an index skipping ahead raises `IndexError`).  Otherwise the buffered
call at the index is updated in place: a truthy `name` overwrites the stored
name, truthy `arguments` are appended to the stored arguments.  The
`hasattr(current_tool_call.function, "arguments")` guard is always true for a
pydantic object, so when the stored arguments are `None` the `+=` raises
`TypeError`. -/
def accumOne (buf : List ToolCallDelta) (d : ToolCallDelta) :
    Except PyError (List ToolCallDelta) :=
  match d.index with
  | none => .ok buf
  | some idx =>
    if h : buf.length ≤ idx then
      if idx < (buf ++ [d]).length then .ok (buf ++ [d]) else .error .indexError
    else
      let cur := buf.get ⟨idx, Nat.lt_of_not_le h⟩
      let f1 :=
        if truthyStr d.function.name then
          { cur.function with name := d.function.name }
        else cur.function
      if truthyStr d.function.arguments then
        match f1.arguments with
        | none => .error .typeError
        | some a =>
          .ok (buf.set idx
            { cur with function := { f1 with arguments := some (a ++ argPayload d) } })
      else
        .ok (buf.set idx { cur with function := f1 })

/-- Accumulation of a sequence of tool-call deltas into the per-index buffer
(the `for tool_call_delta in delta.tool_calls` loop run across stream
chunks). -/
def accumToolCalls : List ToolCallDelta → List ToolCallDelta →
    Except PyError (List ToolCallDelta)
  | buf, [] => .ok buf
  | buf, d :: ds =>
    match accumOne buf d with
    | .ok buf2 => accumToolCalls buf2 ds
    | .error e => .error e

/-- Keyword arguments produced by `json.loads` on a tool call's argument
string. -/
abbrev JsonArgs := List (String × String)

/-- Python `str(x)` for an optional string (`None` prints as `None`). -/
def optionNameStr : Option String → String
  | none => "None"
  | some s => s

/-- `Agent._handle_tool_call` (agent.py lines 219-226): parse the accumulated
arguments with `json.loads` (raising `TypeError` on `None` and propagating a
`JSONDecodeError` on malformed text), look the tool name up in the catalog
with `next(..., None)`, raise `ValueError` when unknown, and otherwise invoke
the tool's coroutine on the parsed keyword arguments.  `jsonLoads` and
`toolFunc` are oracles for the external `json.loads` and the tool body. -/
def handle_tool_call (jsonLoads : String → Except PyError JsonArgs)
    (toolFunc : JsonArgs → Except PyError String)
    (toolNames : List String) (tc : ToolCallDelta) : Except PyError String :=
  match tc.function.arguments with
  | none => .error .typeError
  | some raw =>
    match jsonLoads raw with
    | .error e => .error e
    | .ok args =>
      match toolNames.find? (fun n => decide (some n = tc.function.name)) with
      | none => .error (.valueError ("Unknown tool: " ++ optionNameStr tc.function.name))
      | some _ => toolFunc args

/-- Conversation entries appended by the execution loop. -/
inductive OaiMsg
  | assistantToolCalls (buf : List ToolCallDelta)
  | toolResult (content : String) (name : Option String) (id : Option String)
deriving DecidableEq

/-- Sequential execution of every buffered tool call on a `tool_calls` finish
(agent.py lines 375-385): the first raising call aborts the loop, since
`Agent.step` wraps `_handle_tool_call` in no try/except. -/
def execBufferedCalls (jsonLoads : String → Except PyError JsonArgs)
    (toolFunc : JsonArgs → Except PyError String) (toolNames : List String) :
    List ToolCallDelta → Except PyError (List OaiMsg)
  | [] => .ok []
  | tc :: rest =>
    match handle_tool_call jsonLoads toolFunc toolNames tc with
    | .error e => .error e
    | .ok r =>
      match execBufferedCalls jsonLoads toolFunc toolNames rest with
      | .error e => .error e
      | .ok ms => .ok (OaiMsg.toolResult r tc.function.name tc.id :: ms)

/-- One chunk of the completion stream in the execution phase: its tool-call
deltas, its finish reason, and its text delta. -/
structure ExecChunk where
  tool_calls : List ToolCallDelta
  finish_reason : Option String
  content : Option String
deriving DecidableEq

/-- The fragment yielded for a chunk's text delta, when present. -/
def contentFrags (c : ExecChunk) : List PartialChatMessage :=
  match c.content with
  | none => []
  | some s => [{ role := "assistant", delta_content := s }]

/-- One pass of the `async for chunk in stream` loop of `Agent.step` (agent.py
lines 339-394): accumulate the chunk's tool-call deltas; on a `tool_calls`
finish reason append the assistant tool-call record, execute every buffered
call, append each result as a tool-role message, yield a `"\n"` separator and
keep consuming the stream; on a `stop` finish reason break out of the loop
immediately — before the `if delta.content is not None` check; otherwise yield
the chunk's text delta and continue.  Returns the yielded fragments, the
buffer, the conversation, and the `running` flag. -/
def streamPass (jsonLoads : String → Except PyError JsonArgs)
    (toolFunc : JsonArgs → Except PyError String) (toolNames : List String) :
    List ExecChunk → List ToolCallDelta → List OaiMsg →
    Except PyError (List PartialChatMessage × List ToolCallDelta × List OaiMsg × Bool)
  | [], buf, chat => .ok ([], buf, chat, true)
  | c :: rest, buf, chat =>
    match accumToolCalls buf c.tool_calls with
    | .error e => .error e
    | .ok buf2 =>
      if c.finish_reason = some "tool_calls" then
        match execBufferedCalls jsonLoads toolFunc toolNames buf2 with
        | .error e => .error e
        | .ok results =>
          match streamPass jsonLoads toolFunc toolNames rest buf2
              (chat ++ [OaiMsg.assistantToolCalls buf2] ++ results) with
          | .error e => .error e
          | .ok (frags, buf3, chat3, running) =>
            .ok (({ role := "assistant", delta_content := "\n" } :: contentFrags c) ++ frags,
                 buf3, chat3, running)
      else if c.finish_reason = some "stop" then
        .ok ([], buf2, chat, false)
      else
        match streamPass jsonLoads toolFunc toolNames rest buf2 chat with
        | .error e => .error e
        | .ok (frags, buf3, chat3, running) =>
          .ok (contentFrags c ++ frags, buf3, chat3, running)

/-- The `while running` loop of the execution phase: each iteration issues a
completion request (the oracle supplies each stream's chunks), resets the
tool-call buffer, and consumes the stream; the loop ends when a pass saw a
`stop` finish reason.  Returns the fragments yielded across all passes; a
raised exception aborts the whole turn. -/
def execLoop (jsonLoads : String → Except PyError JsonArgs)
    (toolFunc : JsonArgs → Except PyError String) (toolNames : List String) :
    List (List ExecChunk) → List OaiMsg → Except PyError (List PartialChatMessage)
  | [], _ => .ok []
  | cs :: more, chat =>
    match streamPass jsonLoads toolFunc toolNames cs [] chat with
    | .error e => .error e
    | .ok (frags, _, chat2, running) =>
      if running then
        match execLoop jsonLoads toolFunc toolNames more chat2 with
        | .error e => .error e
        | .ok rest => .ok (frags ++ rest)
      else .ok frags

/- ===== Helper lemmas ===== -/

theorem filter_statusBroadcast_map_close (l : List Nat) :
    (l.map KillEvent.socketClose).filter isStatusBroadcast = [] := by
  induction l with
  | nil => rfl
  | cons x xs ih => simp [List.filter, isStatusBroadcast, ih]

theorem filter_teardown_map_close (l : List Nat) :
    (l.map KillEvent.socketClose).filter isTeardown = [] := by
  induction l with
  | nil => rfl
  | cons x xs ih => simp [List.filter, isTeardown, ih]

/- ===== Claim theorems ===== -/

/-- Claim C1 (code_bug evidence): the durable-message accumulation of
`_handle_chat_message` reads `partial_message.persist`, but `Agent.step`
produces `PartialChatMessage` fragments that carry no `persist` field, so on
every turn — whose fragment stream always starts with the initial empty
fragment — the very first read raises `AttributeError` and no concatenation of
persist-marked content is ever computed or persisted. -/
theorem c1_persist_read_raises (rest : List PartialChatMessage) :
    accumulateTurnContent (stepInitialFragment :: rest) =
      .error PyError.attributeError := by
  rfl

/-- Claim C2 (counterexample): an exception during the turn body followed by an
exception in the recovery broadcast of `_try_handle_chat_message` leaves the
project-wide turn lock unreleased and re-raises to the caller — the release is
not in a finally-equivalent. -/
theorem c2_counterexample :
    (on_chat_message (Outcome.exc true) SandboxStatus.WORKING
        (Outcome.exc true)).lockReleased = false ∧
    (on_chat_message (Outcome.exc true) SandboxStatus.WORKING
        (Outcome.exc true)).raisedToCaller ≠ Outcome.ok := by
  constructor
  · rfl
  · decide

/-- Claim C2 (amended): when the turn body raises an `Exception` subclass and
the recovery broadcast completes without raising (and also on the body's
normal return), `on_chat_message` releases the lock, leaves the status `READY`,
and propagates nothing; otherwise the release on the straight-line path is
skipped. -/
theorem c2_amended (bodyOutcome recoveryEmitOutcome : Outcome)
    (statusAtRaise : SandboxStatus)
    (h : bodyOutcome = Outcome.ok ∨
      (bodyOutcome = Outcome.exc true ∧ recoveryEmitOutcome = Outcome.ok)) :
    on_chat_message bodyOutcome statusAtRaise recoveryEmitOutcome =
      { lockReleased := true, statusAfter := SandboxStatus.READY,
        raisedToCaller := Outcome.ok } := by
  rcases h with h | ⟨h1, h2⟩
  · subst h; rfl
  · subst h1; subst h2; rfl

/-- Witness for `c2_amended` at a concrete input. -/
theorem c2_amended_witness :
    on_chat_message (Outcome.exc true) SandboxStatus.WORKING Outcome.ok =
      { lockReleased := true, statusAfter := SandboxStatus.READY,
        raisedToCaller := Outcome.ok } :=
  c2_amended (Outcome.exc true) Outcome.ok SandboxStatus.WORKING
    (Or.inr ⟨rfl, rfl⟩)

/-- Claim C3 (counterexample): a message arriving while the turn lock is held
is not dropped and the call is not a no-op — the task suspends on the lock's
wait queue and the message is handled once the lock is released. -/
theorem c3_counterexample :
    (onChatMessageArrival ⟨true, [], [], []⟩ 7).dropped = [] ∧
    (onChatMessageArrival ⟨true, [], [], []⟩ 7).waiters = [7] ∧
    (releaseTurnLock (onChatMessageArrival ⟨true, [], [], []⟩ 7)).handled = [7] := by
  refine ⟨rfl, rfl, rfl⟩

/-- Claim C3 (amended): `asyncio.Lock.acquire` never reports failure, so the
`if not await self.lock.acquire(): return` branch is unreachable: no arrival
is ever dropped; an arrival while the lock is free handles the message at
once, an arrival while the lock is held queues it in FIFO order, and a release
hands the lock to the first waiter, whose message is then handled. -/
theorem c3_amended (s : MsgSys) (m : Nat) :
    (onChatMessageArrival s m).dropped = s.dropped ∧
    (s.lockHeld = true →
      onChatMessageArrival s m = { s with waiters := s.waiters ++ [m] }) ∧
    (s.lockHeld = false →
      onChatMessageArrival s m =
        { s with lockHeld := true, handled := s.handled ++ [m] }) ∧
    (∀ m2 rest, s.waiters = m2 :: rest →
      releaseTurnLock s =
        { s with waiters := rest, handled := s.handled ++ [m2] }) := by
  refine ⟨?_, ?_, ?_, ?_⟩
  · by_cases h : s.lockHeld <;> simp [onChatMessageArrival, h]
  · intro h; simp [onChatMessageArrival, h]
  · intro h; simp [onChatMessageArrival, h]
  · intro m2 rest h; simp [releaseTurnLock, h]

/-- Witness for `c3_amended` at concrete inputs. -/
theorem c3_amended_witness :
    onChatMessageArrival ⟨true, [], [], []⟩ 7 = ⟨true, [7], [], []⟩ ∧
    releaseTurnLock ⟨true, [7], [5], []⟩ = ⟨true, [], [5, 7], []⟩ :=
  ⟨(c3_amended ⟨true, [], [], []⟩ 7).2.1 rfl,
   (c3_amended ⟨true, [7], [5], []⟩ 0).2.2.2 7 [] rfl⟩

/-- Claim C6: `kill()` is idempotent — from a live orchestrator, calling it
twice leaves the state of the first call untouched, emits no event on the
second call, and the two calls together broadcast the terminal status exactly
once and request remote-resource teardown at most once. -/
theorem c6_kill_idempotent (s : PMState) (h : s.killed = false) :
    PMState.kill (PMState.kill s).1 = ((PMState.kill s).1, []) ∧
    (((PMState.kill s).2 ++ (PMState.kill (PMState.kill s).1).2).filter
        isStatusBroadcast).length = 1 ∧
    (((PMState.kill s).2 ++ (PMState.kill (PMState.kill s).1).2).filter
        isTeardown).length ≤ 1 := by
  have h1 : (PMState.kill s).1.killed = true := by
    simp [PMState.kill, h]
  have h2 : PMState.kill (PMState.kill s).1 = ((PMState.kill s).1, []) := by
    rw [PMState.kill, if_pos h1]
  refine ⟨h2, ?_, ?_⟩
  · rw [h2]
    rw [PMState.kill, if_neg (by simp [h])]
    cases hm : s.modal_volume_label <;>
      simp [List.filter_append, List.filter,
        filter_statusBroadcast_map_close, isStatusBroadcast, hm]
  · rw [h2]
    rw [PMState.kill, if_neg (by simp [h])]
    cases hm : s.modal_volume_label <;>
      simp [List.filter_append, List.filter,
        filter_teardown_map_close, isTeardown, hm]

/-- Witness for `c6_kill_idempotent` at a concrete live orchestrator. -/
theorem c6_kill_idempotent_witness :
    PMState.kill
        (PMState.kill
          { killed := false, sandbox_status := SandboxStatus.READY,
            reg := { chat_sockets := [(1, [10, 11])], chat_agents := [1],
                     chat_users := [1] },
            modal_volume_label := some "vol" }).1 =
      ((PMState.kill
          { killed := false, sandbox_status := SandboxStatus.READY,
            reg := { chat_sockets := [(1, [10, 11])], chat_agents := [1],
                     chat_users := [1] },
            modal_volume_label := some "vol" }).1, []) :=
  (c6_kill_idempotent
    { killed := false, sandbox_status := SandboxStatus.READY,
      reg := { chat_sockets := [(1, [10, 11])], chat_agents := [1],
               chat_users := [1] },
      modal_volume_label := some "vol" } rfl).1

/-- Claim C7 (code_bug evidence): the first connection for a chat never
creates a session entry — `add_chat_socket` calls `Agent(project, stack,
user)` while `Agent.__init__` accepts only `(self, project, stack)`, so a
`TypeError` is raised before any session map is touched and the connection is
never registered; consequently no agent instance ever exists to be destroyed
by `remove_chat_socket`. -/
theorem c7_add_socket_ctor_type_error :
    add_chat_socket { chat_sockets := [], chat_agents := [], chat_users := [] } 1 7 =
      ({ chat_sockets := [], chat_agents := [], chat_users := [] },
       some PyError.typeError) := by
  rfl

/-- Claim C8: when sandbox acquisition raises the not-ready condition exactly
twice and then succeeds, the reconciliation task broadcasts exactly the status
sequence BUILDING, BUILDING_WAITING, BUILDING_WAITING, READY, sleeping 10
seconds between retries (no agents are open, which is forced anyway by the
constructor bug recorded for C7). -/
theorem c8_status_sequence :
    manage_sandbox_events
        [AcquireResult.notReady, AcquireResult.notReady, AcquireResult.acquired] [] =
      ([SbEvent.emitStatus SandboxStatus.BUILDING,
        SbEvent.emitStatus SandboxStatus.BUILDING_WAITING, SbEvent.sleepSeconds 10,
        SbEvent.emitStatus SandboxStatus.BUILDING_WAITING, SbEvent.sleepSeconds 10,
        SbEvent.emitStatus SandboxStatus.READY], none) ∧
    statusesOf (manage_sandbox_events
        [AcquireResult.notReady, AcquireResult.notReady, AcquireResult.acquired] []).1 =
      [SandboxStatus.BUILDING, SandboxStatus.BUILDING_WAITING,
       SandboxStatus.BUILDING_WAITING, SandboxStatus.READY] := by
  exact ⟨rfl, rfl⟩

/-- Claim C9: calling `remove_chat_socket` for a chat id with no session entry
raises `KeyError` rather than returning as a no-op: the subscript
`self.chat_sockets[chat_id]` raises inside a `try` whose only handler catches
`ValueError`. -/
theorem c9_remove_missing_chat_raises (r : Registry) (chat_id sock : Nat)
    (h : lookupKey r.chat_sockets chat_id = none) :
    remove_chat_socket r chat_id sock = (r, some PyError.keyError) := by
  simp [remove_chat_socket, h]

/-- Witness for `c9_remove_missing_chat_raises`: after `kill()` has cleared
all session maps, removing a socket raises `KeyError`. -/
theorem c9_remove_missing_chat_witness :
    remove_chat_socket
        (PMState.kill
          { killed := false, sandbox_status := SandboxStatus.READY,
            reg := { chat_sockets := [(3, [9])], chat_agents := [3],
                     chat_users := [3] },
            modal_volume_label := none }).1.reg 3 9 =
      ((PMState.kill
          { killed := false, sandbox_status := SandboxStatus.READY,
            reg := { chat_sockets := [(3, [9])], chat_agents := [3],
                     chat_users := [3] },
            modal_volume_label := none }).1.reg, some PyError.keyError) :=
  c9_remove_missing_chat_raises _ 3 9 rfl

/-- Claim C10: a stream chunk whose finish reason is `stop` ends the execution
loop before the `if delta.content is not None` check, so any text delta it
carries is never yielded as a fragment — nothing is streamed or accumulated
from it, and the rest of the stream is not consumed. -/
theorem c10_stop_chunk_content_not_yielded
    (jsonLoads : String → Except PyError JsonArgs)
    (toolFunc : JsonArgs → Except PyError String) (toolNames : List String)
    (s : String) (rest : List ExecChunk) (buf : List ToolCallDelta)
    (chat : List OaiMsg) :
    streamPass jsonLoads toolFunc toolNames
        ({ tool_calls := [], finish_reason := some "stop", content := some s } :: rest)
        buf chat =
      .ok ([], buf, chat, false) := by
  rfl

/- ===== Claim C4 ===== -/

/-- Oracle for `json.loads` that parses successfully to an empty keyword set. -/
def jsonLoadsOk : String → Except PyError JsonArgs := fun _ => .ok []

/-- Oracle for `json.loads` on malformed text: raises `JSONDecodeError`. -/
def jsonLoadsFail : String → Except PyError JsonArgs :=
  fun _ => .error .jsonDecodeError

/-- Oracle for the `run_command` tool body: returns normally. -/
def toolFuncOk : JsonArgs → Except PyError String := fun _ => .ok "ok"

/-- A fully buffered tool call whose name is not in the tool catalog. -/
def badToolDelta : ToolCallDelta :=
  { index := some 0, id := some "call_1",
    function := { name := some "bad_tool", arguments := some "x" } }

/-- Claim C4 (counterexample): a buffered call with an unknown tool name makes
the whole turn crash — `_handle_tool_call` raises `ValueError` and `Agent.step`
has no handler around it, so the execution loop aborts with the exception
instead of surfacing an error value as the tool result and continuing. -/
theorem c4_counterexample :
    execLoop jsonLoadsOk toolFuncOk ["run_command"]
        [[{ tool_calls := [badToolDelta], finish_reason := some "tool_calls",
            content := none }]] [] =
      .error (PyError.valueError "Unknown tool: bad_tool") := by
  rfl

/-- Claim C4 (amended): an unknown tool name raises
`ValueError("Unknown tool: ...")` and JSON-malformed arguments propagate the
`JSONDecodeError`, and either exception escapes `Agent.step`: the stream pass
handling the `tool_calls` finish aborts with the exception, appending no tool
result to the conversation and yielding nothing further — the turn crashes
(only the orchestrator's catch-all stops it) instead of continuing. -/
theorem c4_amended :
    (∀ (jl : String → Except PyError JsonArgs)
       (tf : JsonArgs → Except PyError String) (toolNames : List String)
       (tc : ToolCallDelta) (raw : String) (args : JsonArgs),
      tc.function.arguments = some raw → jl raw = Except.ok args →
      toolNames.find? (fun n => decide (some n = tc.function.name)) = none →
      handle_tool_call jl tf toolNames tc =
        Except.error (PyError.valueError
          ("Unknown tool: " ++ optionNameStr tc.function.name))) ∧
    (∀ (jl : String → Except PyError JsonArgs)
       (tf : JsonArgs → Except PyError String) (toolNames : List String)
       (tc : ToolCallDelta) (raw : String),
      tc.function.arguments = some raw →
      jl raw = Except.error PyError.jsonDecodeError →
      handle_tool_call jl tf toolNames tc =
        Except.error PyError.jsonDecodeError) ∧
    (∀ (jl : String → Except PyError JsonArgs)
       (tf : JsonArgs → Except PyError String) (toolNames : List String)
       (tc : ToolCallDelta) (e : PyError) (chat : List OaiMsg),
      tc.index = some 0 →
      handle_tool_call jl tf toolNames tc = Except.error e →
      streamPass jl tf toolNames
          [{ tool_calls := [tc], finish_reason := some "tool_calls",
             content := none }] [] chat =
        Except.error e) := by
  refine ⟨?_, ?_, ?_⟩
  · intro jl tf toolNames tc raw args h1 h2 h3
    simp [handle_tool_call, h1, h2, h3]
  · intro jl tf toolNames tc raw h1 h2
    simp [handle_tool_call, h1, h2]
  · intro jl tf toolNames tc e chat hidx hh
    have hacc : accumToolCalls [] [tc] = .ok [tc] := by
      simp [accumToolCalls, accumOne, hidx]
    simp [streamPass, hacc, execBufferedCalls, hh]

/-- Witness for `c4_amended` at concrete inputs. -/
theorem c4_amended_witness :
    handle_tool_call jsonLoadsOk toolFuncOk ["run_command"] badToolDelta =
      Except.error (PyError.valueError "Unknown tool: bad_tool") ∧
    handle_tool_call jsonLoadsFail toolFuncOk ["run_command"] badToolDelta =
      Except.error PyError.jsonDecodeError ∧
    streamPass jsonLoadsOk toolFuncOk ["run_command"]
        [{ tool_calls := [badToolDelta], finish_reason := some "tool_calls",
           content := none }] [] [] =
      Except.error (PyError.valueError "Unknown tool: bad_tool") :=
  ⟨c4_amended.1 jsonLoadsOk toolFuncOk ["run_command"] badToolDelta "x" []
      rfl rfl rfl,
   c4_amended.2.1 jsonLoadsFail toolFuncOk ["run_command"] badToolDelta "x"
      rfl rfl,
   c4_amended.2.2 jsonLoadsOk toolFuncOk ["run_command"] badToolDelta
      (PyError.valueError "Unknown tool: bad_tool") [] rfl rfl⟩

/- ===== Claim C5 ===== -/

/-- Concatenation of strings in arrival order — the spec's notion of
"the concatenation, in arrival order, of all argument fragments". -/
def specConcat : List String → String
  | [] => ""
  | s :: rest => s ++ specConcat rest

/-- Names of the fragments carrying a truthy `name`, in arrival order. -/
def truthyNames : List ToolCallDelta → List (Option String)
  | [] => []
  | d :: ds =>
    if truthyStr d.function.name then d.function.name :: truthyNames ds
    else truthyNames ds

/-- Name stored in the buffered call after processing the deltas, starting
from `n`: each truthy name overwrites the stored one, mirroring the
assignment `current_tool_call.function.name = ...` in `Agent.step`. -/
def lastNameFrom (n : Option String) : List ToolCallDelta → Option String
  | [] => n
  | d :: ds =>
    lastNameFrom (if truthyStr d.function.name then d.function.name else n) ds

/-- Arguments accumulated left-to-right starting from `a`, mirroring the
`current_tool_call.function.arguments += ...` updates. -/
def joinPayloadsFrom (a : String) : List ToolCallDelta → String
  | [] => a
  | d :: ds =>
    joinPayloadsFrom
      (if truthyStr d.function.arguments then a ++ argPayload d else a) ds

theorem truthy_append_collapse (a : String) (d : ToolCallDelta) :
    (if truthyStr d.function.arguments then a ++ argPayload d else a) =
      a ++ argPayload d := by
  cases h : d.function.arguments with
  | none => simp [truthyStr, argPayload, h, String.append_empty]
  | some s =>
    by_cases hs : s = ""
    · simp [truthyStr, argPayload, h, hs, String.append_empty]
    · simp [truthyStr, argPayload, h, hs]

theorem joinPayloadsFrom_eq (ds : List ToolCallDelta) :
    ∀ a, joinPayloadsFrom a ds = a ++ specConcat (ds.map argPayload) := by
  induction ds with
  | nil => intro a; simp [joinPayloadsFrom, specConcat, String.append_empty]
  | cons d rest ih =>
    intro a
    rw [joinPayloadsFrom, truthy_append_collapse, ih]
    simp [specConcat, String.append_assoc]

theorem lastNameFrom_no_truthy (ds : List ToolCallDelta) :
    ∀ n, truthyNames ds = [] → lastNameFrom n ds = n := by
  induction ds with
  | nil => intro n _; rfl
  | cons d rest ih =>
    intro n h
    by_cases hd : truthyStr d.function.name = true
    · rw [truthyNames, if_pos hd] at h
      exact absurd h (by simp)
    · rw [truthyNames, if_neg hd] at h
      rw [lastNameFrom, if_neg hd]
      exact ih n h

theorem lastNameFrom_single (ds : List ToolCallDelta) :
    ∀ n nm, truthyNames ds = [some nm] → lastNameFrom n ds = some nm := by
  induction ds with
  | nil => intro n nm h; exact absurd h (by simp [truthyNames])
  | cons d rest ih =>
    intro n nm h
    by_cases hd : truthyStr d.function.name = true
    · rw [truthyNames, if_pos hd] at h
      have h1 : d.function.name = some nm := (List.cons_eq_cons.mp h).1
      have h2 : truthyNames rest = [] := (List.cons_eq_cons.mp h).2
      rw [lastNameFrom, if_pos hd, lastNameFrom_no_truthy rest _ h2, h1]
    · rw [truthyNames, if_neg hd] at h
      rw [lastNameFrom, if_neg hd]
      exact ih n nm h

theorem accumToolCalls_cons_ok {buf buf2 : List ToolCallDelta}
    {d : ToolCallDelta} (h : accumOne buf d = .ok buf2)
    (ds : List ToolCallDelta) :
    accumToolCalls buf (d :: ds) = accumToolCalls buf2 ds := by
  simp [accumToolCalls, h]

theorem accum_single_call (ds : List ToolCallDelta) :
    ∀ (c : ToolCallDelta) (a : String),
      (∀ d ∈ ds, d.index = some 0) →
      c.function.arguments = some a →
      accumToolCalls [c] ds =
        .ok [{ index := c.index, id := c.id,
               function := { name := lastNameFrom c.function.name ds,
                             arguments := some (joinPayloadsFrom a ds) } }] := by
  induction ds with
  | nil =>
    intro c a _ hc
    cases c with
    | mk i cid f =>
      cases f with
      | mk nm args =>
        simp only [ToolCallFunction.mk.injEq] at hc ⊢
        subst hc
        simp [accumToolCalls, lastNameFrom, joinPayloadsFrom]
  | cons d rest ih =>
    intro c a hidx hc
    have hd0 : d.index = some 0 := hidx d (by simp)
    have hrest : ∀ x ∈ rest, x.index = some 0 := fun x hx => hidx x (by simp [hx])
    by_cases hta : truthyStr d.function.arguments = true
    · by_cases htn : truthyStr d.function.name = true
      · have hstep : accumOne [c] d =
            .ok [{ c with function := { name := d.function.name,
                                        arguments := some (a ++ argPayload d) } }] := by
          simp [accumOne, hd0, hta, htn, hc]
        rw [accumToolCalls_cons_ok hstep rest,
          ih { c with function := { name := d.function.name,
                                    arguments := some (a ++ argPayload d) } }
            (a ++ argPayload d) hrest rfl]
        simp [lastNameFrom, joinPayloadsFrom, htn, hta]
      · have hstep : accumOne [c] d =
            .ok [{ c with function := { name := c.function.name,
                                        arguments := some (a ++ argPayload d) } }] := by
          simp [accumOne, hd0, hta, htn, hc]
        rw [accumToolCalls_cons_ok hstep rest,
          ih { c with function := { name := c.function.name,
                                    arguments := some (a ++ argPayload d) } }
            (a ++ argPayload d) hrest rfl]
        simp [lastNameFrom, joinPayloadsFrom, htn, hta]
    · by_cases htn : truthyStr d.function.name = true
      · have hstep : accumOne [c] d =
            .ok [{ c with function := { name := d.function.name,
                                        arguments := c.function.arguments } }] := by
          simp [accumOne, hd0, hta, htn]
        rw [accumToolCalls_cons_ok hstep rest,
          ih { c with function := { name := d.function.name,
                                    arguments := c.function.arguments } } a hrest hc]
        simp [lastNameFrom, joinPayloadsFrom, htn, hta]
      · have hstep : accumOne [c] d = .ok [c] := by
          simp [accumOne, hd0, hta, htn]
        rw [accumToolCalls_cons_ok hstep rest, ih c a hrest hc]
        simp [lastNameFrom, joinPayloadsFrom, htn, hta]

/-- Claim C5 (counterexample): a stream that splits one call's name and
arguments across two fragments for index 0, where the first fragment carries
the name but a `None` arguments field, raises `TypeError` when the second
fragment's arguments are appended (the `hasattr` guard is always true for a
pydantic object) — no call is reconstructed at all. -/
theorem c5_counterexample :
    accumToolCalls []
        [{ index := some 0, id := some "call_1",
           function := { name := some "run_command", arguments := none } },
         { index := some 0, id := none,
           function := { name := none, arguments := some "x" } }] =
      .error PyError.typeError := by
  rfl

/-- Claim C5 (amended): for every sequence of tool-call deltas for index 0
whose first fragment carries a string (possibly empty) `arguments` value and
in which exactly one fragment carries a truthy name, the reconstructed call in
the per-index buffer has that unique name and arguments equal to the
concatenation, in arrival order, of all argument fragments; without the
string-arguments proviso on the first fragment the accumulation can instead
raise `TypeError` (see the counterexample). -/
theorem c5_amended (d0 : ToolCallDelta) (rest : List ToolCallDelta)
    (a0 : String) (nm : String)
    (hidx : ∀ d ∈ d0 :: rest, d.index = some 0)
    (h0 : d0.function.arguments = some a0)
    (hnm : truthyNames (d0 :: rest) = [some nm]) :
    accumToolCalls [] (d0 :: rest) =
      .ok [{ index := d0.index, id := d0.id,
             function := { name := some nm,
                           arguments :=
                             some (specConcat ((d0 :: rest).map argPayload)) } }] := by
  have hd0idx : d0.index = some 0 := hidx d0 (by simp)
  have hrest : ∀ d ∈ rest, d.index = some 0 := fun d hd => hidx d (by simp [hd])
  have hfirst : accumOne [] d0 = .ok [d0] := by
    simp [accumOne, hd0idx]
  have hname : lastNameFrom d0.function.name rest = some nm := by
    by_cases hd : truthyStr d0.function.name = true
    · rw [truthyNames, if_pos hd] at hnm
      have h1 : d0.function.name = some nm := (List.cons_eq_cons.mp hnm).1
      have h2 : truthyNames rest = [] := (List.cons_eq_cons.mp hnm).2
      rw [lastNameFrom_no_truthy rest _ h2, h1]
    · rw [truthyNames, if_neg hd] at hnm
      exact lastNameFrom_single rest _ nm hnm
  have hargs : joinPayloadsFrom a0 rest =
      specConcat ((d0 :: rest).map argPayload) := by
    rw [joinPayloadsFrom_eq]
    have : argPayload d0 = a0 := by simp [argPayload, h0]
    simp [specConcat, this]
  rw [accumToolCalls_cons_ok hfirst rest,
    accum_single_call rest d0 a0 hrest h0, hname, hargs]

/-- Witness for `c5_amended`: one call split across three fragments for
index 0 — the name arrives once, the arguments in two later pieces — is
reconstructed with that name and the in-order concatenation of the pieces. -/
theorem c5_amended_witness :
    accumToolCalls []
        [{ index := some 0, id := some "call_1",
           function := { name := some "run_command", arguments := some "" } },
         { index := some 0, id := none,
           function := { name := none, arguments := some "ab" } },
         { index := some 0, id := none,
           function := { name := none, arguments := some "cd" } }] =
      .ok [{ index := some 0, id := some "call_1",
             function := { name := some "run_command",
                           arguments := some "abcd" } }] :=
  c5_amended
    { index := some 0, id := some "call_1",
      function := { name := some "run_command", arguments := some "" } }
    [{ index := some 0, id := none,
       function := { name := none, arguments := some "ab" } },
     { index := some 0, id := none,
       function := { name := none, arguments := some "cd" } }]
    "" "run_command" (by decide) rfl rfl
